import Mathlib

/-!
Shallow embedding of the merge orchestration subsystem of mergify-engine
(`src/mergify_engine/actions/merge/action.py`): the `MergeAction` state
machine (`run`, `cancel`, `_sync_with_base_branch`, `_get_commit_message`,
`_merge`, `_handle_merge_error`, `_required_statuses_in_progress`), together
with spec-modelled versions of the collaborators that are not part of the
sources (the `queue` module, the `helpers` module, and the jinja2 renderer).

Python tuples `(conclusion, title, summary)` become `Outcome`; the Python
`None` conclusion becomes `Option String`.  Side effects (queue mutation,
the HTTP merge call, the context refresh) are made explicit: the queue is
threaded through as state, the result of `ctxt.client.put` is an input
(`PutResult`), and the refreshed context after `ctxt.update()` is an input
(`refreshed`).  An exception propagating out of `run` is an `Except.error`.
-/

/-- A check report `(conclusion, title, summary)`; conclusion `none`
models Python `None` ("no terminal disposition yet"). -/
abbrev Outcome := Option String × String × String

/-- The `strict` configuration value: `False`, `True` or `"smart"`. -/
inductive Strict where
  | off
  | strict
  | smart
deriving DecidableEq, Repr

/-- Python truthiness of the `strict` value (`False` is falsy,
`True` and `"smart"` are truthy). -/
def Strict.truthy : Strict → Bool
  | .off => false
  | _ => true

/-- The validated merge action configuration (the `validator` dict):
`method ∈ {rebase, merge, squash}`, `rebase_fallback ∈ {merge, squash, None}`,
`strict ∈ {bool, "smart"}`, `strict_method ∈ {rebase, merge}`,
`commit_message ∈ {default, title+body}`. -/
structure MergeConfig where
  method : String := "merge"
  rebase_fallback : Option String := some "merge"
  strict : Strict := .off
  strict_method : String := "merge"
  commit_message : String := "default"

/-- The pull-request object used for commit-message templating
(`ctxt.pull_request`). -/
structure PullRequest where
  title : String := ""
  body : String := ""
  author : String := ""
  number : Nat := 0

/-- One unmet rule condition; the action reads its `attribute_name` and can
evaluate it against a check name (`cond(**{cond.attribute_name: name})`). -/
structure MissingCondition where
  attribute_name : String
  test : String → Bool

/-- The slice of the context (`ctxt`) that the merge action reads:
`ctxt.pull` fields, `ctxt.checks`, `ctxt.is_behind`,
`ctxt.pull_base_is_modifiable` and `ctxt.pull_request`. -/
structure Ctxt where
  number : Nat := 0
  state : String := "open"
  merged : Bool := false
  rebaseable : Bool := true
  head_sha : String := ""
  is_behind : Bool := false
  pull_base_is_modifiable : Bool := true
  checks : List (String × Option String) := []
  pull_request : PullRequest := {}

/-- An entry of the smart merge queue. -/
structure QueueEntry where
  pull_number : Nat
  method : String
deriving DecidableEq, Repr

/-- The persisted smart merge queue. -/
abbrev Queue := List QueueEntry

/-- Modelled from the spec: the `queue` module is not part of the sources.
`RemovePull(ctxt)` (§6 queue storage interface, §4.4): idempotent removal
of the pull request's entry; removing an absent PR is a no-op. -/
def remove_pull (ctxt : Ctxt) (q : Queue) : Queue :=
  q.filter (fun e => e.pull_number ≠ ctxt.number)

/-- Modelled from the spec: the `queue` module is not part of the sources.
`AddPull(ctxt, method)` (§6, §4.4): idempotent enqueue; enqueuing an
already-queued PR updates its method instead of duplicating the entry. -/
def add_pull (ctxt : Ctxt) (method : String) (q : Queue) : Queue :=
  if q.any (fun e => e.pull_number = ctxt.number) then
    q.map (fun e =>
      if e.pull_number = ctxt.number then { e with method := method } else e)
  else q ++ [⟨ctxt.number, method⟩]

/-- Modelled from the spec: `helpers.merge_report` is not part of the
sources.  §4.1 step 1: if the PR is already fully merged, report the
terminal state immediately; otherwise no report (`None`). -/
def merge_report (ctxt : Ctxt) (_strict : Strict) : Option Outcome :=
  if ctxt.merged then
    some (some "success", "The pull request has been merged automatically",
      "The pull request has been merged automatically at *" ++ ctxt.head_sha ++ "*")
  else none

/-- Modelled from the spec: `helpers.get_wait_for_ci_report` is not part of
the sources.  §4.1 `cancel`: the transient "waiting for CI" outcome. -/
def get_wait_for_ci_report (_ctxt : Ctxt) : Outcome :=
  (none, "Waiting for continuous integration to finish",
    "The pull request may still become mergeable once the pending checks complete.")

/-- Modelled from the spec: `helpers.update_pull_base_branch` is not part of
the sources.  §4.1a non-smart: perform the base-branch update synchronously
and return its outcome. -/
def update_pull_base_branch (_ctxt : Ctxt) (method : String) : Outcome :=
  (none, "Base branch updated",
    "The pull request base branch has been updated with method " ++ method ++ ".")

/-- Modelled from the spec: `actions.Action.cancelled_check_report` is not
part of the sources.  The configured hard-cancellation outcome. -/
def cancelled_check_report : Outcome :=
  (some "cancelled", "The rule doesn't match anymore",
    "This action has been cancelled.")

/-- Python `\s` (the line-splitting already consumed every `\n`). -/
def isSpaceLike (c : Char) : Bool :=
  c = ' ' || c = '\t' || c = '\n' || c = '\x0d' || c = '\x0b' || c = '\x0c'

/-- Character-list version of a string prefix test (`str.startswith`);
`String`'s own byte-position-based functions are avoided throughout so that
every definition reduces by computation. -/
def isPrefixChars : List Char → List Char → Bool
  | [], _ => true
  | _ :: _, [] => false
  | p :: ps, c :: cs => p == c && isPrefixChars ps cs

/-- Python `s.startswith(pre)`. -/
def startsWithStr (s pre : String) : Bool :=
  isPrefixChars pre.data s.data

/-- Python `pat in s` (substring containment) for a non-empty pattern. -/
def charsContain (pat : List Char) : List Char → Bool
  | [] => pat.isEmpty
  | c :: rest => isPrefixChars pat (c :: rest) || charsContain pat rest

/-- Python `pat in message`. -/
def containsSubstr (s pat : String) : Bool :=
  charsContain pat.data s.data

/-- Case-insensitive character comparison (`re.I`; the patterns are ASCII). -/
def ciEqChar (a b : Char) : Bool :=
  a.toLower == b.toLower

/-- Strip a case-insensitive prefix, returning the remainder on a match. -/
def ciPrefixDrop : List Char → List Char → Option (List Char)
  | [], l => some l
  | _ :: _, [] => none
  | p :: ps, c :: cs => if ciEqChar p c then ciPrefixDrop ps cs else none

/-- Python `body.split("\n")` (split on every newline; `"".split("\n")`
is `[""]`). -/
def splitLinesAux : List Char → List Char → List String
  | acc, [] => [String.mk acc.reverse]
  | acc, '\n' :: rest => String.mk acc.reverse :: splitLinesAux [] rest
  | acc, c :: rest => splitLinesAux (c :: acc) rest

/-- Python `body.split("\n")`. -/
def splitLines (s : String) : List String :=
  splitLinesAux [] s.data

/-- Python `s.strip()` on a character list. -/
def trimChars (l : List Char) : List Char :=
  ((l.dropWhile isSpaceLike).reverse.dropWhile isSpaceLike).reverse

/-- Python `s.strip()`. -/
def trimStr (s : String) : String :=
  String.mk (trimChars s.data)

/-- Python `"\n".join(lines)`. -/
def joinLines : List String → String
  | [] => ""
  | [l] => l
  | l :: rest => l ++ "\n" ++ joinLines rest

/-- `MARKDOWN_TITLE_RE = re.compile(r"^#+ ", re.I)` matched with `re.match`:
the line starts with one or more `#` followed by a space. -/
def isMarkdownTitle (s : String) : Bool :=
  match s.data with
  | '#' :: _ =>
    match s.data.dropWhile (fun c => c == '#') with
    | ' ' :: _ => true
    | _ => false
  | _ => false

/-- `MARKDOWN_COMMIT_MESSAGE_RE = re.compile(r"^#+ Commit Message ?:?\s*$", re.I)`
matched with `re.match`: one or more `#`, a space, "Commit Message"
case-insensitively, an optional space, an optional colon, then only
whitespace up to the end of the line. -/
def isCommitMessageHeading (s : String) : Bool :=
  match s.data with
  | '#' :: _ =>
    match ciPrefixDrop " commit message".data
        (s.data.dropWhile (fun c => c == '#')) with
    | none => false
    | some t0 =>
      let t1 := match t0 with | ' ' :: r => r | _ => t0
      let t2 := match t1 with | ':' :: r => r | _ => t1
      t2.all isSpaceLike
  | _ => false

/-- Python `not line.strip()`: the line is entirely whitespace. -/
def blankLine (s : String) : Bool :=
  s.data.all isSpaceLike

/-- `MergeAction._required_statuses_in_progress`: a closed PR is never in
progress; any missing condition whose `attribute_name` does not start with
`status-` short-circuits to `False`; with only status conditions, the result
is `True` when there are no checks at all, no check matches any condition,
or some matched check state is `pending`/`None`. -/
def _required_statuses_in_progress (ctxt : Ctxt)
    (missing_conditions : List MissingCondition) : Bool :=
  if ctxt.state = "closed" then false
  else if !missing_conditions.all
      (fun c => startsWithStr c.attribute_name "status-") then false
  else if missing_conditions.isEmpty then false
  else if ctxt.checks.isEmpty then true
  else
    let states := ctxt.checks.flatMap (fun nc =>
      missing_conditions.filterMap (fun cond =>
        if cond.test nc.1 then some nc.2 else none))
    if states.isEmpty then true
    else states.any (fun s => s = some "pending" || s = none)

/-- `MergeAction.cancel`: when `strict` is truthy and only required status
checks are still in progress, report "waiting for CI" without cancelling;
otherwise dequeue first when `strict == "smart"` and return the hard
cancellation report.  The queue is threaded as explicit state. -/
def cancel (config : MergeConfig) (ctxt : Ctxt)
    (missing_conditions : List MissingCondition) (q : Queue) : Outcome × Queue :=
  if config.strict.truthy &&
      _required_statuses_in_progress ctxt missing_conditions then
    (get_wait_for_ci_report ctxt, q)
  else
    (cancelled_check_report,
      if config.strict = .smart then remove_pull ctxt q else q)

/-- `MergeAction._sync_with_base_branch`: an unmodifiable base fails; in
smart mode enqueue and defer; otherwise update synchronously. -/
def _sync_with_base_branch (config : MergeConfig) (ctxt : Ctxt) (q : Queue) :
    Outcome × Queue :=
  if !ctxt.pull_base_is_modifiable then
    ((some "failure",
      "Pull request can't be updated with latest base branch changes, owner doesn't allow modification",
      ""), q)
  else if config.strict = .smart then
    ((none, "Base branch will be updated soon",
      "The pull request base branch will be updated soon, and then merged."),
     add_pull ctxt config.strict_method q)
  else
    (update_pull_base_branch ctxt config.strict_method, q)

/-- The rendering failures of `_get_commit_message`:
`jinja2.exceptions.TemplateSyntaxError` (message, lineno),
`jinja2.exceptions.TemplateError` (message) and
`context.PullRequestAttributeError` (name). -/
inductive RenderError where
  | syntaxError (message : String) (lineno : Nat)
  | templateError (message : String)
  | unknownAttribute (name : String)
deriving DecidableEq, Repr

/-- Modelled from the spec: the pull-request attribute resolver (§2, §9) —
the `context` module is not part of the sources.  Maps an attribute name to
its value; unknown names produce a named lookup failure
(`PullRequestAttributeError`), never a silent default. -/
def prLookup (pr : PullRequest) : String → Option String
  | "title" => some pr.title
  | "body" => some pr.body
  | "author" => some pr.author
  | "number" => some (toString pr.number)
  | _ => none

/-- Helper of the spec-modelled renderer: find the closing braces of an
attribute reference, returning the name characters and the remainder. -/
def findCloseBraces : List Char → Option (List Char × List Char)
  | [] => none
  | '\x7d' :: '\x7d' :: rest => some ([], rest)
  | c :: rest =>
    match findCloseBraces rest with
    | none => none
    | some (nm, after) => some (c :: nm, after)

/-- Modelled from the spec: the jinja2 sandboxed environment is a
third-party collaborator; §9 asks for a minimal evaluator restricted to
attribute interpolation with strict-undefined semantics, rejecting
control-flow constructs.  Fuel-driven scan over the characters. -/
def substTemplate (lookup : String → Option String) :
    Nat → List Char → Except RenderError (List Char)
  | 0, _ => .error (.templateError "template evaluation did not terminate")
  | _ + 1, [] => .ok []
  | _ + 1, '\x7b' :: '\x25' :: _ =>
    .error (.templateError "control flow constructs are not allowed")
  | fuel + 1, '\x7b' :: '\x7b' :: rest =>
    match findCloseBraces rest with
    | none => .error (.syntaxError "unexpected end of template" 1)
    | some (nameChars, after) =>
      let nm := String.mk (trimChars nameChars)
      match lookup nm with
      | none => .error (.unknownAttribute nm)
      | some v =>
        match substTemplate lookup fuel after with
        | .error e => .error e
        | .ok tail => .ok (v.data ++ tail)
  | fuel + 1, c :: rest =>
    match substTemplate lookup fuel rest with
    | .error e => .error e
    | .ok tail => .ok (c :: tail)

/-- Modelled from the spec: `env.from_string(s).render()` with the
pull-request attribute namespace as the only variable scope. -/
def renderTemplate (pr : PullRequest) (s : String) : Except RenderError String :=
  match substTemplate (prLookup pr) (s.length + 1) s.data with
  | .error e => .error e
  | .ok cs => .ok (String.mk cs)

/-- The collecting loop of `_get_commit_message`: a commit-message heading
sets `found`; once found, the next markdown title breaks; once found, other
lines are collected.  Returns the final `found` flag and collected lines. -/
def collectLines : Bool → List String → Bool × List String
  | found, [] => (found, [])
  | found, line :: rest =>
    if isCommitMessageHeading line then collectLines true rest
    else if found && isMarkdownTitle line then (found, [])
    else if found then
      let r := collectLines found rest
      (r.1, line :: r.2)
    else collectLines found rest

/-- `MergeAction._get_commit_message`: `title+body` mode returns the PR
title and body verbatim; `default` mode scans the body for a
"Commit Message" heading block, strips surrounding blank lines, and renders
the first line as the title and the remaining (trimmed) lines as the body.
Python `return` without value becomes `.ok none`. -/
def _get_commit_message (pull_request : PullRequest)
    (mode : String := "default") : Except RenderError (Option (String × String)) :=
  if mode = "title+body" then .ok (some (pull_request.title, pull_request.body))
  else if pull_request.body = "" then .ok none
  else
    let r := collectLines false (splitLines pull_request.body)
    let found := r.1
    let message_lines := r.2.dropWhile (fun x => blankLine x)
    match message_lines with
    | [] => .ok none
    | title :: restLines =>
      if found then
        let body_lines := restLines.dropWhile (fun x => blankLine x)
        match renderTemplate pull_request (trimStr title) with
        | .error e => .error e
        | .ok t =>
          match renderTemplate pull_request
              (joinLines (body_lines.map (fun l => trimStr l))) with
          | .error e => .error e
          | .ok m => .ok (some (t, m))
      else .ok none

/-- The JSON payload sent to `pulls/{number}/merge`. -/
structure MergeData where
  commit_title : Option String := none
  commit_message : Option String := none
  sha : String
  merge_method : String
deriving DecidableEq, Repr

/-- The result of `ctxt.client.put` on the merge endpoint:
success, an `httpx.HTTPClientSideError` (caught), or any other
exception (propagates). -/
inductive PutResult where
  | success
  | clientError (status_code : Nat) (message : String)
  | otherError (message : String)
deriving DecidableEq, Repr


/-- `MergeAction._handle_merge_error`: the classifier for a client-side
merge failure, evaluated on the refreshed context.  Substring checks on the
error message come first ("Head branch was modified" → cancelled,
"Base branch was modified" → re-enter the base-branch sync), then the
HTTP 405 branch-protection case (conclusion `None`), and anything else is a
terminal failure carrying the remote message verbatim. -/
def _handle_merge_error (config : MergeConfig) (status_code : Nat)
    (message : String) (ctxt : Ctxt) (q : Queue) : Outcome × Queue :=
  if containsSubstr message "Head branch was modified" then
    ((some "cancelled", "Head branch was modified in the meantime",
      "The head branch was modified, the merge action have been cancelled."), q)
  else if containsSubstr message "Base branch was modified" then
    _sync_with_base_branch config ctxt q
  else if status_code = 405 then
    ((none, "Waiting for the Branch Protection to be validated",
      "Branch Protection is enabled and is preventing Mergify "
      ++ "to merge the pull request. Mergify will merge when "
      ++ "branch protection settings validate the pull request. "
      ++ "(detail: " ++ message ++ ")"), q)
  else
    ((some "failure", "Mergify failed to merge the pull request",
      "GitHub error message: `" ++ message ++ "`"), q)

/-- The result of `_merge` / `run`: the returned report (`Except.error`
when an exception propagates; the report itself is optional because
`merge_report` may be `None`), the final queue, and the payload of the
merge-endpoint call when one was made. -/
structure MergeStepResult where
  result : Except String (Option Outcome)
  queue : Queue
  mergeCall : Option MergeData
deriving Repr

/-- The method-resolution stage of `MergeAction._merge`: use
`config.method` unless it is `rebase` and the PR is not rebaseable, in
which case fall back to `config.rebase_fallback`; a falsy fallback is the
`action_required` early return. -/
def _merge_method (config : MergeConfig) (ctxt : Ctxt) : Except Outcome String :=
  if config.method ≠ "rebase" || ctxt.rebaseable then .ok config.method
  else
    match config.rebase_fallback with
    | some fb => .ok fb
    | none =>
      .error (some "action_required",
        "Automatic rebasing is not possible, manual intervention required",
        "")

/-- `MergeAction._merge`: resolve the effective merge method (with the
rebase fallback), derive the commit message (template failures become
`action_required` reports), build the payload and submit the merge call.
On success refresh and return `merge_report`; on a client-side error
refresh first, treat an already-merged PR as success, otherwise classify
via `_handle_merge_error`; any other exception propagates.  `refreshed` is
the context after `ctxt.update()`; `put` is the endpoint's response. -/
def _merge (config : MergeConfig) (ctxt : Ctxt) (refreshed : Ctxt)
    (put : PutResult) (q : Queue) : MergeStepResult :=
  match _merge_method config ctxt with
  | .error out => ⟨.ok (some out), q, none⟩
  | .ok method =>
    match _get_commit_message ctxt.pull_request config.commit_message with
    | .error (.syntaxError msg lineno) =>
      ⟨.ok (some (some "action_required", "Invalid commit message",
        "There is an error in your commit message: " ++ msg
        ++ " at line " ++ toString lineno)), q, none⟩
    | .error (.templateError msg) =>
      ⟨.ok (some (some "action_required", "Invalid commit message",
        "There is an error in your commit message: " ++ msg)), q, none⟩
    | .error (.unknownAttribute nm) =>
      ⟨.ok (some (some "action_required", "Invalid commit message",
        "There is an error in your commit message, the following variable is unknown: "
        ++ nm)), q, none⟩
    | .ok commit_title_and_message =>
      let data : MergeData :=
        { commit_title := commit_title_and_message.bind (fun p =>
            if p.1 ≠ "" then some p.1 else none)
          commit_message := commit_title_and_message.bind (fun p =>
            if p.2 ≠ "" then some p.2 else none)
          sha := ctxt.head_sha
          merge_method := method }
      match put with
      | .success =>
        ⟨.ok (merge_report refreshed config.strict), q, some data⟩
      | .otherError msg =>
        ⟨.error msg, q, some data⟩
      | .clientError status_code msg =>
        if refreshed.merged then
          ⟨.ok (merge_report refreshed config.strict), q, some data⟩
        else
          let r := _handle_merge_error config status_code msg refreshed q
          ⟨.ok (some r.1), r.2, some data⟩

/-- `MergeAction.run`: report immediately (dequeuing in smart mode) when
`merge_report` is set; otherwise sync with the base branch when strict and
behind; otherwise attempt the merge with a `finally` that dequeues in smart
mode on every exit, exceptional ones included. -/
def run (config : MergeConfig) (ctxt : Ctxt) (refreshed : Ctxt)
    (put : PutResult) (_missing_conditions : List MissingCondition)
    (q : Queue) : MergeStepResult :=
  match merge_report ctxt config.strict with
  | some output =>
    ⟨.ok (some output),
     if config.strict = .smart then remove_pull ctxt q else q, none⟩
  | none =>
    if config.strict.truthy && ctxt.is_behind then
      let r := _sync_with_base_branch config ctxt q
      ⟨.ok (some r.1), r.2, none⟩
    else
      let r := _merge config ctxt refreshed put q
      ⟨r.result,
       if config.strict = .smart then remove_pull ctxt r.queue else r.queue,
       r.mergeCall⟩

/-! ## Helper lemmas -/

/-- After `remove_pull`, no queue entry carries the context's pull number. -/
lemma remove_pull_clears (ctxt : Ctxt) (q : Queue) :
    ((remove_pull ctxt q).all fun e => e.pull_number != ctxt.number) = true := by
  simp only [remove_pull, List.all_eq_true, List.mem_filter]
  intro e he
  simpa using he.2

/-- With an open PR and a non-empty, status-only set of missing conditions
whose matched check states are all `pending`/absent, the in-progress test
holds. -/
lemma statuses_in_progress_of (ctxt : Ctxt) (mc : List MissingCondition)
    (hopen : ctxt.state ≠ "closed") (hne : mc ≠ [])
    (hall : (mc.all fun c => startsWithStr c.attribute_name "status-") = true)
    (hpend : ((ctxt.checks.flatMap fun nc => mc.filterMap fun cond =>
        if cond.test nc.1 then some nc.2 else none).all
      fun s => s = some "pending" || s = none) = true) :
    _required_statuses_in_progress ctxt mc = true := by
  unfold _required_statuses_in_progress
  rw [if_neg hopen, hall]
  have hne' : mc.isEmpty = false := by
    cases mc with
    | nil => exact absurd rfl hne
    | cons a t => rfl
  simp only [Bool.not_true, Bool.false_eq_true, if_false, hne']
  by_cases hch : ctxt.checks.isEmpty = true
  · simp [hch]
  · simp only [hch, Bool.false_eq_true, if_false]
    generalize hst : (ctxt.checks.flatMap fun nc => mc.filterMap fun cond =>
      if cond.test nc.1 then some nc.2 else none) = states at hpend ⊢
    by_cases hse : states.isEmpty = true
    · simp [hse]
    · simp only [hse, Bool.false_eq_true, if_false]
      have hnil : states ≠ [] := by
        intro hh
        rw [hh] at hse
        exact hse rfl
      obtain ⟨x, hx⟩ := List.exists_mem_of_ne_nil states hnil
      rw [List.any_eq_true]
      exact ⟨x, hx, List.all_eq_true.1 hpend x hx⟩

/-- Any non-status missing condition, or a closed PR, fails the in-progress
test. -/
lemma statuses_not_in_progress_of (ctxt : Ctxt) (mc : List MissingCondition)
    (h : (mc.all fun c => startsWithStr c.attribute_name "status-") = false ∨
      ctxt.state = "closed") :
    _required_statuses_in_progress ctxt mc = false := by
  unfold _required_statuses_in_progress
  rcases h with h | h
  · by_cases hc : ctxt.state = "closed"
    · simp [hc]
    · simp [hc, h]
  · simp [h]

/-- Without any commit-message heading line, the collecting loop finds
nothing. -/
lemma collectLines_no_heading (ls : List String)
    (h : (ls.all fun l => !isCommitMessageHeading l) = true) :
    collectLines false ls = (false, []) := by
  induction ls with
  | nil => rfl
  | cons l t ih =>
    simp only [List.all_cons, Bool.and_eq_true, Bool.not_eq_true'] at h
    simp [collectLines, h.1, ih (by simpa using h.2)]

/-! ## Claims -/

/-- C1: with `strict == "smart"`, after `run` returns any outcome from the
merge-attempt path or from the already-merged report path (success or
failure alike), the pull request's queue entry has been removed from the
merge queue — no queue entry is leaked by a completed run. -/
theorem run_smart_removes_queue_entry (config : MergeConfig)
    (ctxt refreshed : Ctxt) (put : PutResult) (mc : List MissingCondition)
    (q : Queue) (hsmart : config.strict = .smart)
    (hpath : merge_report ctxt config.strict ≠ none ∨ ctxt.is_behind = false) :
    ((run config ctxt refreshed put mc q).queue.all
      fun e => e.pull_number != ctxt.number) = true := by
  unfold run
  cases hmr : merge_report ctxt config.strict with
  | some out => simp [hsmart, remove_pull_clears]
  | none =>
    rcases hpath with h | h
    · exact absurd hmr h
    · simp [hsmart, h, Strict.truthy, remove_pull_clears]

/-- C1 witness: a concrete already-merged smart run leaves the PR absent
from the queue. -/
theorem run_smart_removes_queue_entry_witness :
    ((run { strict := .smart } { number := 5, merged := true } {} .success []
      [⟨5, "merge"⟩]).queue.all fun e => e.pull_number != 5) = true :=
  run_smart_removes_queue_entry { strict := .smart }
    { number := 5, merged := true } {} .success [] [⟨5, "merge"⟩] rfl
    (Or.inl (by decide))

/-- C9: with `strict == "smart"`, even when the merge attempt raises an
exception that propagates out of `run`, the `finally` clause still removes
the PR's queue entry — an exceptional exit leaves the PR absent from the
queue. -/
theorem run_smart_removes_on_exception (config : MergeConfig)
    (ctxt refreshed : Ctxt) (put : PutResult) (mc : List MissingCondition)
    (q : Queue) (msg : String) (hsmart : config.strict = .smart)
    (herr : (run config ctxt refreshed put mc q).result = .error msg) :
    ((run config ctxt refreshed put mc q).queue.all
      fun e => e.pull_number != ctxt.number) = true := by
  unfold run at *
  cases hmr : merge_report ctxt config.strict with
  | some out => simp [hmr] at herr
  | none =>
    by_cases hb : (config.strict.truthy && ctxt.is_behind) = true
    · simp [hmr, hb] at herr
    · simp only [hsmart, Strict.truthy, Bool.true_and] at hb
      simp [hmr, hsmart, hb, remove_pull_clears]

/-- C9 witness: a concrete smart run whose merge call raises still ends
with the PR absent from the queue. -/
theorem run_smart_removes_on_exception_witness :
    ((run { strict := .smart } { number := 5 } {} (.otherError "boom") []
      [⟨5, "merge"⟩]).queue.all fun e => e.pull_number != 5) = true :=
  run_smart_removes_on_exception { strict := .smart } { number := 5 } {}
    (.otherError "boom") [] [⟨5, "merge"⟩] "boom" rfl rfl

/-- C2: the client-side merge-failure classifier (run when the refreshed
snapshot does not show the PR merged) maps, in order: a message containing
"Head branch was modified" to a `cancelled` outcome; a message containing
"Base branch was modified" to re-entering the base-branch-sync path; a 405
status to conclusion `None` with a waiting-for-branch-protection message;
and any other error to a `failure` whose detail carries the remote error
text verbatim. -/
theorem handle_merge_error_classification (config : MergeConfig)
    (status_code : Nat) (msg : String) (ctxt : Ctxt) (q : Queue) :
    (containsSubstr msg "Head branch was modified" = true →
      (_handle_merge_error config status_code msg ctxt q).1.1 = some "cancelled") ∧
    (containsSubstr msg "Head branch was modified" = false →
      containsSubstr msg "Base branch was modified" = true →
      _handle_merge_error config status_code msg ctxt q =
        _sync_with_base_branch config ctxt q) ∧
    (containsSubstr msg "Head branch was modified" = false →
      containsSubstr msg "Base branch was modified" = false →
      status_code = 405 →
      (_handle_merge_error config status_code msg ctxt q).1.1 = none ∧
      (_handle_merge_error config status_code msg ctxt q).1.2.1 =
        "Waiting for the Branch Protection to be validated" ∧
      (_handle_merge_error config status_code msg ctxt q).2 = q) ∧
    (containsSubstr msg "Head branch was modified" = false →
      containsSubstr msg "Base branch was modified" = false →
      status_code ≠ 405 →
      _handle_merge_error config status_code msg ctxt q =
        ((some "failure", "Mergify failed to merge the pull request",
          "GitHub error message: `" ++ msg ++ "`"), q)) := by
  refine ⟨fun h1 => ?_, fun h1 h2 => ?_, fun h1 h2 h3 => ?_, fun h1 h2 h3 => ?_⟩ <;>
    simp [_handle_merge_error, h1]
  · simp [h2]
  · simp [h2, h3]
  · simp [h2, h3]

/-- C2 witness: the four classifier branches evaluated at concrete
failures. -/
theorem handle_merge_error_classification_witness :
    (_handle_merge_error {} 409 "Head branch was modified" {} []).1.1 =
      some "cancelled" ∧
    _handle_merge_error {} 409 "Base branch was modified" {} [] =
      _sync_with_base_branch {} {} [] ∧
    (_handle_merge_error {} 405 "required status" {} []).1.1 = none ∧
    _handle_merge_error {} 422 "boom" {} [] =
      ((some "failure", "Mergify failed to merge the pull request",
        "GitHub error message: `boom`"), []) :=
  ⟨(handle_merge_error_classification {} 409 "Head branch was modified" {} []).1
      rfl,
   (handle_merge_error_classification {} 409 "Base branch was modified" {} []).2.1
      rfl rfl,
   ((handle_merge_error_classification {} 405 "required status" {} []).2.2.1
      rfl rfl rfl).1,
   (handle_merge_error_classification {} 422 "boom" {} []).2.2.2
      rfl rfl (by decide)⟩

/-- C3 counterexample: the claim as stated fails on an empty
`missing_conditions` list — `strict` truthy, PR open, every (zero)
condition is a status condition and every (zero) matched state is pending,
yet `cancel` performs the hard cancel with dequeue instead of returning the
waiting-for-CI outcome. -/
theorem cancel_empty_vacuous_cex :
    cancel { strict := .smart } { number := 7 } [] [⟨7, "merge"⟩] =
      (cancelled_check_report, []) ∧
    cancelled_check_report ≠ get_wait_for_ci_report { number := 7 } :=
  ⟨rfl, by decide⟩

/-- C3 (amended: at least one missing condition is required for the
waiting path): with `strict` truthy, an open PR and a *non-empty*
`missing_conditions` all of whose attribute names start with `status-` and
whose matched check states are all pending or absent (including when no
checks are reported), `cancel` returns the waiting-for-CI outcome without
touching the queue; with any non-status condition present, or a closed PR,
it returns the hard cancellation, dequeuing first when
`strict == "smart"`. -/
theorem cancel_status_only_waits (config : MergeConfig) (ctxt : Ctxt)
    (mc : List MissingCondition) (q : Queue)
    (ht : config.strict.truthy = true) :
    (ctxt.state ≠ "closed" → mc ≠ [] →
      (mc.all fun c => startsWithStr c.attribute_name "status-") = true →
      ((ctxt.checks.flatMap fun nc => mc.filterMap fun cond =>
          if cond.test nc.1 then some nc.2 else none).all
        fun s => s = some "pending" || s = none) = true →
      cancel config ctxt mc q = (get_wait_for_ci_report ctxt, q)) ∧
    ((mc.all fun c => startsWithStr c.attribute_name "status-") = false ∨
      ctxt.state = "closed" →
      cancel config ctxt mc q =
        (cancelled_check_report,
          if config.strict = .smart then remove_pull ctxt q else q)) := by
  constructor
  · intro hopen hne hall hpend
    have hp := statuses_in_progress_of ctxt mc hopen hne hall hpend
    simp [cancel, ht, hp]
  · intro h
    have hp := statuses_not_in_progress_of ctxt mc h
    simp [cancel, hp]

/-- C3 witness: a pending status-only missing condition yields the waiting
outcome with the queue untouched. -/
theorem cancel_status_only_waits_witness :
    cancel { strict := .smart } { checks := [("ci", some "pending")] }
      [⟨"status-ci", fun n => n == "ci"⟩] [⟨3, "merge"⟩] =
      (get_wait_for_ci_report { checks := [("ci", some "pending")] },
        [⟨3, "merge"⟩]) :=
  (cancel_status_only_waits { strict := .smart }
      { checks := [("ci", some "pending")] }
      [⟨"status-ci", fun n => n == "ci"⟩] [⟨3, "merge"⟩] rfl).1
    (by decide) (List.cons_ne_nil _ _) rfl rfl

/-- C10: with `strict` truthy, an open PR and an *empty*
`missing_conditions` list the waiting-for-CI path is not taken — the
in-progress test requires at least one status condition — so `cancel`
performs the hard cancel, dequeuing first when `strict == "smart"`. -/
theorem cancel_empty_conditions_hard_cancel (config : MergeConfig)
    (ctxt : Ctxt) (q : Queue) (_ht : config.strict.truthy = true)
    (hopen : ctxt.state ≠ "closed") :
    cancel config ctxt [] q =
      (cancelled_check_report,
        if config.strict = .smart then remove_pull ctxt q else q) := by
  simp [cancel, _required_statuses_in_progress, hopen]

/-- C10 witness: a concrete smart cancel with no missing conditions hard
cancels and dequeues. -/
theorem cancel_empty_conditions_hard_cancel_witness :
    cancel { strict := .smart } { number := 2 } [] [⟨2, "merge"⟩] =
      (cancelled_check_report,
        if ({ strict := .smart } : MergeConfig).strict = .smart then
          remove_pull { number := 2 } [⟨2, "merge"⟩]
        else [⟨2, "merge"⟩]) :=
  cancel_empty_conditions_hard_cancel { strict := .smart } { number := 2 }
    [⟨2, "merge"⟩] rfl (by decide)

/-- C4 counterexample: on the base-branch-sync path with an unmodifiable
base, the code returns conclusion `"failure"`, not `"action_required"` as
the claim states. -/
theorem sync_unmodifiable_base_cex :
    (run { strict := .smart }
        { is_behind := true, pull_base_is_modifiable := false }
        {} .success [] []).result =
      .ok (some (some "failure",
        "Pull request can't be updated with latest base branch changes, owner doesn't allow modification",
        "")) ∧
    (some "failure" : Option String) ≠ some "action_required" :=
  ⟨rfl, by decide⟩

/-- C4 (amended: the conclusion is `failure`, not `action_required`): on
every invocation taking the base-branch-sync path (`strict` truthy, PR
behind, no immediate report) where the base branch disallows modification,
`run` fails with conclusion `"failure"` and the owner-does-not-allow
message, regardless of whether `strict` is `true` or `"smart"`. -/
theorem sync_unmodifiable_base_fails (config : MergeConfig)
    (ctxt refreshed : Ctxt) (put : PutResult) (mc : List MissingCondition)
    (q : Queue) (ht : config.strict.truthy = true)
    (hb : ctxt.is_behind = true)
    (hmr : merge_report ctxt config.strict = none)
    (hmod : ctxt.pull_base_is_modifiable = false) :
    (run config ctxt refreshed put mc q).result =
      .ok (some (some "failure",
        "Pull request can't be updated with latest base branch changes, owner doesn't allow modification",
        "")) := by
  unfold run
  simp [hmr, ht, hb, _sync_with_base_branch, hmod]

/-- C4 witness: the failure conclusion at a concrete behind, unmodifiable
pull request, under `strict = true`. -/
theorem sync_unmodifiable_base_fails_witness :
    (run { strict := .strict }
        { is_behind := true, pull_base_is_modifiable := false }
        {} .success [] []).result =
      .ok (some (some "failure",
        "Pull request can't be updated with latest base branch changes, owner doesn't allow modification",
        "")) :=
  sync_unmodifiable_base_fails { strict := .strict }
    { is_behind := true, pull_base_is_modifiable := false } {} .success [] []
    rfl rfl rfl rfl

/-- C5 counterexample: with `method = rebase`, `rebaseable = false` and
`rebase_fallback = none` but `strict` truthy on a PR behind its base,
`run` takes the sync path and returns conclusion `None` ("will update
soon"), not `action_required` as the claim universally states. -/
theorem rebase_fallback_cex :
    (run { method := "rebase", rebase_fallback := none, strict := .smart }
        { rebaseable := false, is_behind := true } {} .success [] []).result =
      .ok (some (none, "Base branch will be updated soon",
        "The pull request base branch will be updated soon, and then merged.")) ∧
    (none : Option String) ≠ some "action_required" :=
  ⟨rfl, by decide⟩

/-- C5 (amended: restricted to runs that reach the merge attempt, i.e. no
immediate report and not (`strict` truthy and behind)): with
`method = rebase` and a non-rebaseable PR, a `rebase_fallback` of `none`
makes `run` return `action_required` ("Automatic rebasing is not possible,
manual intervention required") without ever calling the merge endpoint,
and a fallback of `merge`/`squash` becomes the `merge_method` of any
endpoint call made. -/
theorem rebase_fallback_resolution (config : MergeConfig)
    (ctxt refreshed : Ctxt) (put : PutResult) (mc : List MissingCondition)
    (q : Queue) (hm : config.method = "rebase") (hr : ctxt.rebaseable = false)
    (hmr : merge_report ctxt config.strict = none)
    (hpath : config.strict.truthy = false ∨ ctxt.is_behind = false) :
    (config.rebase_fallback = none →
      (run config ctxt refreshed put mc q).result =
        .ok (some (some "action_required",
          "Automatic rebasing is not possible, manual intervention required", "")) ∧
      (run config ctxt refreshed put mc q).mergeCall = none) ∧
    (∀ fb, config.rebase_fallback = some fb →
      ∀ d, (run config ctxt refreshed put mc q).mergeCall = some d →
        d.merge_method = fb) := by
  have hb : (config.strict.truthy && ctxt.is_behind) = false := by
    rcases hpath with h | h <;> simp [h]
  constructor
  · intro hfb
    unfold run _merge _merge_method
    simp [hmr, hb, hm, hr, hfb]
  · intro fb hfb d hd
    unfold run _merge at hd
    have hme : _merge_method config ctxt = .ok fb := by
      unfold _merge_method
      simp [hm, hr, hfb]
    rw [hme] at hd
    simp only [hmr, hb, Bool.false_eq_true, if_false] at hd
    cases hg : _get_commit_message ctxt.pull_request config.commit_message with
    | error e => cases e <;> simp [hg] at hd
    | ok ctm =>
      cases put with
      | success =>
        simp [hg] at hd
        rw [← hd]
      | otherError m =>
        simp [hg] at hd
        rw [← hd]
      | clientError code m =>
        by_cases hmm : refreshed.merged = true <;> simp [hg, hmm] at hd <;>
          rw [← hd]

/-- C5 witness: a concrete non-rebaseable PR with no fallback gets the
`action_required` report and no endpoint call. -/
theorem rebase_fallback_resolution_witness :
    (run { method := "rebase", rebase_fallback := none }
        { rebaseable := false } {} .success [] []).result =
      .ok (some (some "action_required",
        "Automatic rebasing is not possible, manual intervention required", "")) ∧
    (run { method := "rebase", rebase_fallback := none }
        { rebaseable := false } {} .success [] []).mergeCall = none :=
  (rebase_fallback_resolution { method := "rebase", rebase_fallback := none }
      { rebaseable := false } {} .success [] [] rfl rfl rfl (Or.inl rfl)).1 rfl

/-- C6: commit-message derivation in default mode: on the body
`"intro\n# Commit Message\nFix bug\n\nDetails here\n# Another Heading\nignored"`
the derived title is `"Fix bug"` and the body `"Details here"`; a body with
no "Commit Message" heading line, and a body whose collected block is
entirely blank, both yield no override (`None`). -/
theorem get_commit_message_extraction :
    _get_commit_message
      { body := "intro\n# Commit Message\nFix bug\n\nDetails here\n# Another Heading\nignored" }
      "default" = .ok (some ("Fix bug", "Details here")) ∧
    (∀ pr : PullRequest,
      ((splitLines pr.body).all fun l => !isCommitMessageHeading l) = true →
      _get_commit_message pr "default" = .ok none) ∧
    (∀ pr : PullRequest,
      ((collectLines false (splitLines pr.body)).2.all fun l => blankLine l) = true →
      _get_commit_message pr "default" = .ok none) := by
  refine ⟨rfl, fun pr h => ?_, fun pr h => ?_⟩
  · by_cases hb : pr.body = ""
    · simp [_get_commit_message, hb]
    · have hc := collectLines_no_heading _ h
      simp [_get_commit_message, hb, hc]
  · by_cases hb : pr.body = ""
    · simp [_get_commit_message, hb]
    · have hd : (collectLines false (splitLines pr.body)).2.dropWhile
          (fun x => blankLine x) = [] := by
        rw [List.dropWhile_eq_nil_iff]
        intro x hx
        exact List.all_eq_true.1 h x hx
      simp [_get_commit_message, hb, hd]

/-- C6 witness: a heading-less body and an all-blank collected block each
yield no override. -/
theorem get_commit_message_extraction_witness :
    _get_commit_message { body := "no heading\nhere at all" } "default" =
      .ok none ∧
    _get_commit_message { body := "x\n# Commit Message\n \n\t" } "default" =
      .ok none :=
  ⟨get_commit_message_extraction.2.1 { body := "no heading\nhere at all" } rfl,
   get_commit_message_extraction.2.2 { body := "x\n# Commit Message\n \n\t" } rfl⟩

/-- C7: on any client-side failure of a merge call that was actually
submitted, the refreshed snapshot decides everything: when it already shows
the PR merged the failure is treated as success (the up-to-date
`merge_report` is returned, nothing is classified); otherwise the failure
is classified by `_handle_merge_error` on the refreshed context. -/
theorem merge_client_error_refreshes_first (config : MergeConfig)
    (ctxt refreshed : Ctxt) (q : Queue) (status_code : Nat) (msg : String)
    (hcall : (_merge config ctxt refreshed
        (.clientError status_code msg) q).mergeCall.isSome = true) :
    (refreshed.merged = true →
      (_merge config ctxt refreshed (.clientError status_code msg) q).result =
        .ok (merge_report refreshed config.strict) ∧
      (_merge config ctxt refreshed (.clientError status_code msg) q).queue = q) ∧
    (refreshed.merged = false →
      (_merge config ctxt refreshed (.clientError status_code msg) q).result =
        .ok (some (_handle_merge_error config status_code msg refreshed q).1) ∧
      (_merge config ctxt refreshed (.clientError status_code msg) q).queue =
        (_handle_merge_error config status_code msg refreshed q).2) := by
  unfold _merge at *
  cases hme : _merge_method config ctxt with
  | error out => rw [hme] at hcall; simp at hcall
  | ok method =>
    rw [hme] at hcall
    cases hg : _get_commit_message ctxt.pull_request config.commit_message with
    | error e => rw [hg] at hcall; cases e <;> simp at hcall
    | ok ctm =>
      constructor
      · intro hmm; simp [hmm]
      · intro hmm; simp [hmm]

/-- C7 witness: a concrete 409 client error with a refreshed snapshot that
shows the PR merged is reported as the up-to-date merge report. -/
theorem merge_client_error_refreshes_first_witness :
    (_merge {} {} { merged := true } (.clientError 409 "conflict") []).result =
      .ok (merge_report { merged := true } Strict.off) ∧
    (_merge {} {} { merged := true } (.clientError 409 "conflict") []).queue = [] :=
  (merge_client_error_refreshes_first {} {} { merged := true } [] 409
      "conflict" rfl).1 rfl

/-- C8: any commit-message rendering error on the merge-attempt path —
template syntax error, other template error, or unknown pull-request
attribute — makes `run` return `action_required` with summary
"Invalid commit message" and a detail carrying the underlying error message
(with the line number for syntax errors and the attribute name for unknown
attributes), and the merge endpoint is never called. -/
theorem invalid_commit_message_action_required (config : MergeConfig)
    (ctxt refreshed : Ctxt) (put : PutResult) (mc : List MissingCondition)
    (q : Queue) (e : RenderError)
    (hmr : merge_report ctxt config.strict = none)
    (hpath : config.strict.truthy = false ∨ ctxt.is_behind = false)
    (hmeth : ¬(config.method = "rebase" ∧ ctxt.rebaseable = false ∧
      config.rebase_fallback = none))
    (herr : _get_commit_message ctxt.pull_request config.commit_message =
      .error e) :
    (run config ctxt refreshed put mc q).result =
      .ok (some (some "action_required", "Invalid commit message",
        match e with
        | .syntaxError m l =>
          "There is an error in your commit message: " ++ m ++ " at line "
          ++ toString l
        | .templateError m =>
          "There is an error in your commit message: " ++ m
        | .unknownAttribute nm =>
          "There is an error in your commit message, the following variable is unknown: "
          ++ nm)) ∧
    (run config ctxt refreshed put mc q).mergeCall = none := by
  have hb : (config.strict.truthy && ctxt.is_behind) = false := by
    rcases hpath with h | h <;> simp [h]
  have hok : ∃ m, _merge_method config ctxt = .ok m := by
    unfold _merge_method
    by_cases h1 : (config.method ≠ "rebase" || ctxt.rebaseable) = true
    · exact ⟨config.method, if_pos h1⟩
    · cases hfb : config.rebase_fallback with
      | some fb => exact ⟨fb, by rw [if_neg h1]⟩
      | none =>
        exfalso
        apply hmeth
        simp only [Bool.or_eq_true, decide_eq_true_eq, not_or, ne_eq,
          Decidable.not_not, Bool.not_eq_true] at h1
        exact ⟨h1.1, h1.2, hfb⟩
  obtain ⟨m, hm⟩ := hok
  cases e <;>
    (unfold run _merge; rw [hmr, hm]; simp [hb, herr])

/-- C8 witness: a commit-message block referencing an unknown attribute
yields the `action_required` report naming the attribute, with no endpoint
call. -/
theorem invalid_commit_message_action_required_witness :
    (run {} { pull_request := { body := "t\n# Commit Message\n{{frobnicate}}" } }
        {} .success [] []).result =
      .ok (some (some "action_required", "Invalid commit message",
        "There is an error in your commit message, the following variable is unknown: frobnicate")) ∧
    (run {} { pull_request := { body := "t\n# Commit Message\n{{frobnicate}}" } }
        {} .success [] []).mergeCall = none :=
  invalid_commit_message_action_required {}
    { pull_request := { body := "t\n# Commit Message\n{{frobnicate}}" } }
    {} .success [] [] (.unknownAttribute "frobnicate") rfl (Or.inl rfl)
    (by decide) rfl
